import Mathlib

/-!
# Verification of the vendor-price-matcher repository

A shallow embedding, in Lean 4, of the key-normalization and matching engine
of the two Python scripts `vendor_price_matcher.py` and
`find_discontinued_items.py`, together with theorems settling the frozen
claims about the natural-language specification of the repository.

Conventions of the embedding:
* Python strings become Lean `String`s.  The string primitives the scripts use
  (`str.split('-')`, `str.upper()`, `str.strip()`, `'-'.join`, substring
  containment) are re-implemented here by structural recursion over the
  character list, so that all definitions evaluate inside the kernel.
  `upper`/`strip` are modelled for ASCII data, which is the data domain of
  the item codes and vendor fields the scripts process.
* A spreadsheet cell that can be a missing value (`None`/`NaN`) becomes
  `Option String`; `pandas` stringification of an object-dtype `None` cell
  (`astype(str)`) yields the literal string `"None"`.
* Prices are modelled as rational numbers (`ℚ`); the `Price` column is
  assumed to carry actual numbers.  A second, column-level `DataFrame` model
  is given further below for the frame-effect claims, where `Price` cells can
  also be null.
* Fallible code paths (the per-vendor-pair `try/except` handlers) become
  `Option`-returning functions, `none` modelling a caught exception.
-/

/-! ## String primitives (models of the Python built-ins) -/

/-- Model of Python `str.split(sep)` for a one-character separator, over the
character list: splitting never yields `[]`; splitting the empty string
yields `[[]]`, and adjacent separators yield empty groups — exactly the
semantics of Python `str.split('-')`. -/
def splitOnCharList (sep : Char) : List Char → List (List Char)
  | [] => [[]]
  | a :: rest =>
    let r := splitOnCharList sep rest
    if a = sep then [] :: r
    else
      match r with
      | [] => [[a]]
      | g :: gs => (a :: g) :: gs

/-- Model of Python `item_no.split('-')` as used by both scripts. -/
def pySplitDash (s : String) : List String :=
  (splitOnCharList '-' s.data).map (fun l => String.mk l)

/-- Model of Python `'-'.join(parts)`. -/
def joinDash : List String → String
  | [] => ""
  | [s] => s
  | s :: rest => s ++ "-" ++ joinDash rest

/-- Model of Python `str.upper()` (ASCII). -/
def pyUpper (s : String) : String := String.mk (s.data.map Char.toUpper)

/-- ASCII whitespace, the characters Python `str.strip()` removes on the
data domain of these scripts. -/
def isPySpace (c : Char) : Bool :=
  c = ' ' || c = '\t' || c = '\n' || c = '\r' || c = '\x0b' || c = '\x0c'

/-- Model of Python `str.strip()` (ASCII whitespace). -/
def pyStrip (s : String) : String :=
  String.mk (((s.data.dropWhile isPySpace).reverse.dropWhile isPySpace).reverse)

/-- `astype(str).str.upper().str.strip()`, the normalization applied to every
key field in both scripts (upper first, then strip — the source order). -/
def pyNorm (s : String) : String := pyStrip (pyUpper s)

/-- Stringification of a possibly-missing cell, Python `str(x)`: an
object-dtype missing value (`None`) stringifies to `"None"`. -/
def pyStr : Option String → String
  | none => "None"
  | some s => s

/-- Whether the first list occurs at the front of the second. -/
def leadingMatch : List Char → List Char → Bool
  | [], _ => true
  | _ :: _, [] => false
  | p :: ps, a :: rest => p = a && leadingMatch ps rest

/-- Model of Python substring containment (`pat in s`, `Series.str.contains`):
`true` iff `pat.data` occurs contiguously in `s.data`. -/
def listHasInfix (pat : List Char) : List Char → Bool
  | [] => pat.isEmpty
  | a :: rest => leadingMatch pat (a :: rest) || listHasInfix pat rest

/-- Python `pat in s` on strings. -/
def strContains (s pat : String) : Bool := listHasInfix pat.data s.data

/-! ## Key Normalizer

`parse_item_no` appears, with identical logic, in both scripts
(`vendor_price_matcher.py` lines 59–85 and `find_discontinued_items.py`
lines 36–51); one definition embeds both.  The Python function returns a
4-tuple; here it returns the `Parsed` record. -/

/-- The (style, color, size, variable) decomposition of an item code; `none`
models Python `None`. The `Variable` component is named `var` (`variable` is
reserved in Lean). -/
structure Parsed where
  style : Option String
  color : Option String
  size : Option String
  var : Option String
deriving DecidableEq, Repr

/-- `parse_item_no` (both scripts): split the code on `-`; 4 segments give
all four fields, 3 give an absent variable, more than 4 rejoin the middle
segments into the color, anything shorter yields the all-`None` tuple. -/
def parse_item_no (item_no : String) : Parsed :=
  match pySplitDash item_no with
  | [s, c, sz, v] => ⟨some s, some c, some sz, some v⟩
  | [s, c, sz] => ⟨some s, some c, some sz, none⟩
  | parts =>
    if parts.length > 4 then
      ⟨some (parts.headD ""),
       some (joinDash ((parts.drop 1).dropLast.dropLast)),
       some (parts.dropLast.getLastD ""),
       some (parts.getLastD "")⟩
    else
      ⟨none, none, none, none⟩

/-- `create_lookup_key` (`find_discontinued_items.py` lines 54–71): normalize
each field with `str(…).upper().strip()`; the variable counts as absent when
it is a missing value, strips to the empty string, or normalizes to the
literal `NONE` or `NAN`; the key is `STYLE|COLOR|SIZE|VARIABLE` with a
present variable and `STYLE|COLOR|SIZE` otherwise. -/
def create_lookup_key (style color size : Option String) (var : Option String) : String :=
  let style_n := pyNorm (pyStr style)
  let color_n := pyNorm (pyStr color)
  let size_n := pyNorm (pyStr size)
  let var_n :=
    match var with
    | none => ""
    | some v =>
      if pyStrip v = "" then ""
      else if pyNorm v = "NONE" || pyNorm v = "NAN" then ""
      else pyNorm v
  if var_n ≠ "" then style_n ++ "|" ++ color_n ++ "|" ++ size_n ++ "|" ++ var_n
  else style_n ++ "|" ++ color_n ++ "|" ++ size_n

/-! ## Size Mapper (`vendor_price_matcher.py` lines 34–105) -/

/-- `SIZE_MAPPING` (lines 34–44). -/
def SIZE_MAPPING : List (String × String) :=
  [("XS", "XSM"), ("S", "SM"), ("M", "MD"), ("L", "LG"), ("XL", "XLG"),
   ("2XL", "2XLG"), ("3XL", "3XLG"), ("4XL", "4XLG"), ("5XL", "5XLG")]

/-- A size-mapping rule: either a bare style, or an exact (style, color)
pair — the two shapes held by `STYLES_USING_G_SIZES`. -/
inductive StyleRule where
  | styleOnly (style : String)
  | styleColor (style : String) (color : String)
deriving DecidableEq, Repr

/-- `STYLES_USING_G_SIZES` (lines 48–52), in source order. -/
def STYLES_USING_G_SIZES : List StyleRule :=
  [.styleOnly "2278", .styleOnly "3483", .styleColor "2795" "SILVER"]

/-- `SIZE_MAPPING.get(size, size)`: a parsed size that is a missing value is
not a key of the dict, so the default (the missing value itself) is
returned. -/
def sizeMappingGet (size : Option String) : Option String :=
  size.map (fun s => ((SIZE_MAPPING.lookup s).getD s))

/-- `apply_conditional_size_mapping` (lines 88–105): scan the rule list in
order; a tuple rule fires on the exact raw (style, color) pair, a bare rule
on the raw style; the first firing rule maps the size through
`SIZE_MAPPING`; otherwise the size is returned unchanged.  The comparisons
use the raw parsed fields — no normalization. -/
def apply_conditional_size_mapping (style color size : Option String) :
    List StyleRule → Option String
  | [] => size
  | .styleOnly s :: rest =>
    if style == some s then sizeMappingGet size
    else apply_conditional_size_mapping style color size rest
  | .styleColor s c :: rest =>
    if style == some s && color == some c then sizeMappingGet size
    else apply_conditional_size_mapping style color size rest

/-! ## Matcher, price-matching mode (`vendor_price_matcher.py` lines 161–224)

Typed row model: the internal (OITM) table is a list of item-code strings in
its `Item No.` column; the vendor (VPL) table is a list of `VplRow`s with the
five validated columns `Vendor Style`, `Color`, `Size`, `Variable`, `Price`.
The `Variable` cell can be missing (`fillna('')` turns it into the empty
string); the other three key cells are taken to be present strings and the
`Price` cells to be numbers. -/

/-- A vendor (VPL) table row. -/
structure VplRow where
  vendorStyle : String
  color : String
  size : String
  var : Option String
  price : ℚ
deriving DecidableEq, Repr

/-- `Variable_norm`: `fillna('').astype(str).str.upper().str.strip()`
(lines 180 and 186). -/
def pyNormVar (var : Option String) : String := pyNorm (var.getD "")

/-- `Lookup_Key_4` of a vendor row (lines 189–194): always four
pipe-separated fields, the variable slot possibly empty. -/
def vplKey4 (r : VplRow) : String :=
  pyNorm r.vendorStyle ++ "|" ++ pyNorm r.color ++ "|" ++ pyNorm r.size ++ "|" ++ pyNormVar r.var

/-- `Lookup_Key_3` of a vendor row (lines 196–200). -/
def vplKey3 (r : VplRow) : String :=
  pyNorm r.vendorStyle ++ "|" ++ pyNorm r.color ++ "|" ++ pyNorm r.size

/-- An internal (OITM) table row after `match_prices` has added its derived
columns (parsed fields, mapped size, normalized fields, lookup keys, price). -/
structure OitmRow where
  itemNo : String
  style : Option String
  color : Option String
  size : Option String
  var : Option String
  sizeMapped : Option String
  styleNorm : String
  colorNorm : String
  sizeNorm : String
  sizeMappedNorm : String
  varNorm : String
  lookupKey4Mapped : String
  lookupKey3Mapped : String
  price : Option ℚ
deriving DecidableEq, Repr

/-- Lines 165–213 of `match_prices`, for one internal row: parse the item
code, conditionally map the size, normalize every field
(`astype(str).str.upper().str.strip()`, the parsed `None`s stringifying to
`"None"`, the missing variable `fillna`'d to the empty string), and build the
two lookup keys from the *mapped* size.  `Price` is not yet assigned. -/
def computeOitmRow (rules : List StyleRule) (item_no : String) : OitmRow :=
  let p := parse_item_no item_no
  let sizeMapped := apply_conditional_size_mapping p.style p.color p.size rules
  let styleNorm := pyNorm (pyStr p.style)
  let colorNorm := pyNorm (pyStr p.color)
  let sizeNorm := pyNorm (pyStr p.size)
  let sizeMappedNorm := pyNorm (pyStr sizeMapped)
  let varNorm := pyNormVar p.var
  { itemNo := item_no
    style := p.style, color := p.color, size := p.size, var := p.var
    sizeMapped := sizeMapped
    styleNorm := styleNorm, colorNorm := colorNorm, sizeNorm := sizeNorm
    sizeMappedNorm := sizeMappedNorm, varNorm := varNorm
    lookupKey4Mapped := styleNorm ++ "|" ++ colorNorm ++ "|" ++ sizeMappedNorm ++ "|" ++ varNorm
    lookupKey3Mapped := styleNorm ++ "|" ++ colorNorm ++ "|" ++ sizeMappedNorm
    price := none }

/-- `dict(zip(keys, values))` followed by `dict.get`: with duplicate keys the
last pair wins, so the lookup folds left, later pairs overriding earlier
ones. -/
def dictGet (pairs : List (String × ℚ)) (k : String) : Option ℚ :=
  pairs.foldl (fun acc p => if p.1 == k then some p.2 else acc) none

/-- `match_prices` (lines 161–224): derive the per-row columns, build the two
vendor lookup dicts (lines 216–217), assign `Price` from the 4-part map and,
where that map missed, from the 3-part map (lines 220–222). -/
def match_prices (oitm : List String) (vpl : List VplRow) (rules : List StyleRule) :
    List OitmRow :=
  let d4 := vpl.map (fun v => (vplKey4 v, v.price))
  let d3 := vpl.map (fun v => (vplKey3 v, v.price))
  (oitm.map (computeOitmRow rules)).map (fun r =>
    { r with price :=
        match dictGet d4 r.lookupKey4Mapped with
        | some p => some p
        | none => dictGet d3 r.lookupKey3Mapped })

/-- The constant reason text written for every removed SKU in the detail
sheet of the summary report (`create_summary_report`, line 440). -/
def removedSkuReason : String := "No matching price found"

/-- The per-vendor summary assembled by `process_vendor` (lines 256–293). -/
structure VendorSummary where
  vendor : String
  totalSkus : Nat
  matchedSkus : Nat
  removedSkus : Nat
  matchRate : ℚ
  sizeMapped : Nat
  outputFile : Option String
  removedItems : List String
deriving DecidableEq, Repr

/-- `process_vendor` (lines 227–297) after the column validations: run
`match_prices`, compute the statistics, always create the per-vendor output
file (line 280), and return the summary.  On an internal table with zero
rows the body raises before reaching line 280 — the removal-percentage
computation `removed_skus/total_skus*100` at line 274 divides by zero (and
the row-wise parse assignment at lines 165–167 already fails on an empty
frame) — and the `except` handler at line 295 turns the exception into
`None`; that caught-and-skipped outcome is modelled as `none`. -/
def process_vendor (vendor : String) (oitm : List String) (vpl : List VplRow)
    (rules : List StyleRule) : Option VendorSummary :=
  let rows := match_prices oitm vpl rules
  let totalSkus := rows.length
  let matchedSkus := (rows.filter (fun r => r.price.isSome)).length
  let removedSkus := totalSkus - matchedSkus
  let matchRate : ℚ := if totalSkus > 0 then (matchedSkus : ℚ) / (totalSkus : ℚ) * 100 else 0
  if totalSkus = 0 then none
  else
    some { vendor := vendor
           totalSkus := totalSkus
           matchedSkus := matchedSkus
           removedSkus := removedSkus
           matchRate := matchRate
           sizeMapped := (rows.filter (fun r => r.price.isSome && !(r.size == r.sizeMapped))).length
           outputFile := some (vendor ++ "_OITM_Updated.xlsx")
           removedItems := (rows.filter (fun r => r.price.isNone)).map (fun r => r.itemNo) }

/-! ## Matcher, discontinuation mode (`find_discontinued_items.py`
lines 104–296) -/

/-- A vendor (DTW) table row: the three key columns, the optional `Variable`
column (set to `None` for every row when the column is absent, line 162),
and the `Style Name` descriptive field. -/
structure DtwRow where
  vendorStyle : String
  color : String
  size : String
  var : Option String
  styleName : String
deriving DecidableEq, Repr

/-- The single-tier lookup key of an internal item in discontinuation mode
(lines 150–158): parse the item code, then `create_lookup_key` over the
parsed fields — no size mapping. -/
def oitm_lookup_key (code : String) : String :=
  let p := parse_item_no code
  create_lookup_key p.style p.color p.size p.var

/-- The lookup key of a DTW row (lines 165–173). -/
def dtwKey (r : DtwRow) : String :=
  create_lookup_key (some r.vendorStyle) (some r.color) (some r.size) r.var

/-- The discontinued filter (line 177): `Style Name`, uppercased, contains
the substring `DISCONTINUED`. -/
def isDiscontinuedRow (r : DtwRow) : Bool :=
  strContains (pyUpper r.styleName) "DISCONTINUED"

/-- `oitm_to_deactivate` (lines 177–194): the internal items, in input
order, whose lookup key lies in the key set of the discontinued DTW rows. -/
def oitm_to_deactivate (oitm : List String) (dtw : List DtwRow) : List String :=
  let keys := (dtw.filter isDiscontinuedRow).map dtwKey
  oitm.filter (fun code => keys.contains (oitm_lookup_key code))

/-- The per-vendor summary assembled by `find_discontinued_items`. -/
structure DiscSummary where
  vendor : String
  totalOitm : Nat
  discontinuedInDtw : Nat
  matchedToDeactivate : Nat
  outputFile : Option String
deriving DecidableEq, Repr

/-- `find_discontinued_items` (lines 104–296) after the column validations:
zero discontinued DTW rows (lines 182–190) and zero matched internal items
(lines 220–228) both return a zero-count summary with no output file; a
nonempty match writes the deactivation file (lines 277–278).  An internal
table with zero rows fails in the row-wise parse assignment (lines 150–152)
and the `except` handler at line 292 converts that to `None`, modelled as
`none`. -/
def find_discontinued_items (vendor : String) (oitm : List String) (dtw : List DtwRow) :
    Option DiscSummary :=
  if oitm.length = 0 then none
  else
    let discontinued := dtw.filter isDiscontinuedRow
    if discontinued.length = 0 then
      some ⟨vendor, oitm.length, 0, 0, none⟩
    else
      let deactivate := oitm_to_deactivate oitm dtw
      if deactivate.length = 0 then
        some ⟨vendor, oitm.length, discontinued.length, 0, none⟩
      else
        some ⟨vendor, oitm.length, discontinued.length, deactivate.length,
              some (vendor ++ "_DEACTIVATE_DTW.xlsx")⟩

/-- Whether a size-mapping rule matches the raw parsed (style, color) pair:
a bare-style rule on the style alone, a paired rule on the exact
combination. -/
def ruleMatches (style color : Option String) : StyleRule → Bool
  | .styleOnly s => style == some s
  | .styleColor s c => style == some s && color == some c

/-! ## C3: the frame effect of `match_prices` on its input tables

`match_prices` receives the two `pandas` frames and assigns new columns to
both *in place*: lines 183–200 add six derived columns to the vendor frame
(`Style_norm`, `Color_norm`, `Size_norm`, `Variable_norm`, `Lookup_Key_4`,
`Lookup_Key_3`), and lines 165–222 add thirteen to the internal frame.  The
typed row model above cannot express that mutation, so this section models a
frame as an ordered association list of named columns and re-states the
column assignments as an explicit frame-in, frame-out function. -/

/-- A spreadsheet cell: a string, a number, an object-dtype missing value
(`None`, stringifying to `"None"`), or a float `NaN` (stringifying to
`"nan"`). -/
inductive Cell where
  | str (s : String)
  | num (q : ℚ)
  | pynone
  | nan
deriving DecidableEq, Repr

/-- A data frame: named columns in order, each a list of cells. -/
abbrev DataFrame := List (String × List Cell)

/-- The column names of a frame, in order. -/
def DataFrame.names (df : DataFrame) : List String := df.map (fun p => p.1)

/-- Read a column (the empty column when the name is absent; the scripts
validate the required columns before the matcher runs). -/
def DataFrame.getCol (df : DataFrame) (n : String) : List Cell :=
  match df.find? (fun p => p.1 == n) with
  | some p => p.2
  | none => []

/-- `df[n] = v`: overwrite the column in place when the name exists,
otherwise append it — the `pandas` column-assignment semantics. -/
def DataFrame.setCol (df : DataFrame) (n : String) (v : List Cell) : DataFrame :=
  if df.any (fun p => p.1 == n) then df.map (fun p => if p.1 == n then (n, v) else p)
  else df ++ [(n, v)]

/-- A sequence of in-place column assignments, first to last. -/
def DataFrame.setCols (df : DataFrame) (cols : List (String × List Cell)) : DataFrame :=
  cols.foldl (fun d p => DataFrame.setCol d p.1 p.2) df

/-- `astype(str)` on one cell. -/
def cellStr : Cell → String
  | .str s => s
  | .num q => toString q
  | .pynone => "None"
  | .nan => "nan"

/-- `fillna('')` on one cell. -/
def cellFillnaEmptyStr : Cell → Cell
  | .pynone => .str ""
  | .nan => .str ""
  | c => c

/-- `isna` on one cell. -/
def cellIsNA : Cell → Bool
  | .pynone => true
  | .nan => true
  | _ => false

/-- An `Option String` parse field as an object-dtype cell. -/
def cellOfOpt : Option String → Cell
  | none => .pynone
  | some s => .str s

/-- `dict(zip(keys, values))` then `dict.get` at the cell level
(last-write-wins, `None` when the key is absent). -/
def cellDictGet (pairs : List (String × Cell)) (k : String) : Option Cell :=
  pairs.foldl (fun acc p => if p.1 == k then some p.2 else acc) none

/-- The state of the vendor frame after `match_prices` (lines 183–200): the
six derived columns are assigned in place, each computed from the original
`Vendor Style`/`Color`/`Size`/`Variable` columns (which those lines only
read). -/
def matchPricesVplEffect (vpl_df : DataFrame) : DataFrame :=
  let styleN := (DataFrame.getCol vpl_df "Vendor Style").map (fun c => pyNorm (cellStr c))
  let colorN := (DataFrame.getCol vpl_df "Color").map (fun c => pyNorm (cellStr c))
  let sizeN := (DataFrame.getCol vpl_df "Size").map (fun c => pyNorm (cellStr c))
  let varN := (DataFrame.getCol vpl_df "Variable").map
    (fun c => pyNorm (cellStr (cellFillnaEmptyStr c)))
  let k4 := List.zipWith (fun a b => a ++ "|" ++ b)
    (List.zipWith (fun a b => a ++ "|" ++ b)
      (List.zipWith (fun a b => a ++ "|" ++ b) styleN colorN) sizeN) varN
  let k3 := List.zipWith (fun a b => a ++ "|" ++ b)
    (List.zipWith (fun a b => a ++ "|" ++ b) styleN colorN) sizeN
  DataFrame.setCols vpl_df
    [("Style_norm", styleN.map .str), ("Color_norm", colorN.map .str),
     ("Size_norm", sizeN.map .str), ("Variable_norm", varN.map .str),
     ("Lookup_Key_4", k4.map .str), ("Lookup_Key_3", k3.map .str)]

/-- The state of the internal frame after `match_prices` (lines 165–222):
thirteen derived columns assigned in place — the four parse fields, the
conditionally mapped size, the five normalized fields, the two lookup keys
(built from the mapped size) and the matched `Price`.  The price of a row is
the 4-part dict hit unless that hit is absent or a missing value (`isna`,
line 221), in which case the 3-part dict is consulted; the dicts are built
from the key and `Price` columns the vendor frame carries after its own
mutation. -/
def matchPricesOitmEffect (oitm_df vpl_df : DataFrame) : DataFrame :=
  let parsed := (DataFrame.getCol oitm_df "Item No.").map (fun c => parse_item_no (cellStr c))
  let sizeMapped := parsed.map
    (fun p => apply_conditional_size_mapping p.style p.color p.size STYLES_USING_G_SIZES)
  let styleN := parsed.map (fun p => pyNorm (pyStr p.style))
  let colorN := parsed.map (fun p => pyNorm (pyStr p.color))
  let sizeN := parsed.map (fun p => pyNorm (pyStr p.size))
  let sizeMN := sizeMapped.map (fun o => pyNorm (pyStr o))
  let varN := parsed.map (fun p => pyNormVar p.var)
  let k4 := List.zipWith (fun a b => a ++ "|" ++ b)
    (List.zipWith (fun a b => a ++ "|" ++ b)
      (List.zipWith (fun a b => a ++ "|" ++ b) styleN colorN) sizeMN) varN
  let k3 := List.zipWith (fun a b => a ++ "|" ++ b)
    (List.zipWith (fun a b => a ++ "|" ++ b) styleN colorN) sizeMN
  let vdf := matchPricesVplEffect vpl_df
  let vprice := DataFrame.getCol vdf "Price"
  let d4 := List.zip ((DataFrame.getCol vdf "Lookup_Key_4").map cellStr) vprice
  let d3 := List.zip ((DataFrame.getCol vdf "Lookup_Key_3").map cellStr) vprice
  let price := List.zipWith (fun a b =>
    let p4 := (cellDictGet d4 a).getD .nan
    if cellIsNA p4 then (cellDictGet d3 b).getD .nan else p4) k4 k3
  DataFrame.setCols oitm_df
    [("Style", parsed.map (fun p => cellOfOpt p.style)),
     ("Color", parsed.map (fun p => cellOfOpt p.color)),
     ("Size", parsed.map (fun p => cellOfOpt p.size)),
     ("Variable", parsed.map (fun p => cellOfOpt p.var)),
     ("Size_Mapped", sizeMapped.map cellOfOpt),
     ("Style_norm", styleN.map .str), ("Color_norm", colorN.map .str),
     ("Size_norm", sizeN.map .str), ("Size_Mapped_norm", sizeMN.map .str),
     ("Variable_norm", varN.map .str),
     ("Lookup_Key_4_Mapped", k4.map .str), ("Lookup_Key_3_Mapped", k3.map .str),
     ("Price", price)]

/-! ## Supporting lemmas -/

lemma dictGet_foldl_none (k : String) (pairs : List (String × ℚ)) (acc : Option ℚ) :
    (pairs.foldl (fun a p => if p.1 == k then some p.2 else a) acc = none) ↔
      (acc = none ∧ ∀ p ∈ pairs, p.1 ≠ k) := by
  induction pairs generalizing acc with
  | nil => simp
  | cons q rest ih =>
    simp only [List.foldl_cons, ih, List.mem_cons]
    by_cases h : q.1 = k
    · constructor
      · rintro ⟨h1, -⟩
        rw [if_pos (by simpa using h)] at h1
        cases h1
      · rintro ⟨-, hall⟩
        exact absurd h (hall q (Or.inl rfl))
    · rw [if_neg (by simpa using h)]
      constructor
      · rintro ⟨h1, h2⟩
        refine ⟨h1, ?_⟩
        rintro p (rfl | hp)
        · exact h
        · exact h2 p hp
      · rintro ⟨h1, h2⟩
        exact ⟨h1, fun p hp => h2 p (Or.inr hp)⟩

lemma dictGet_eq_none_iff (pairs : List (String × ℚ)) (k : String) :
    dictGet pairs k = none ↔ ∀ p ∈ pairs, p.1 ≠ k := by
  unfold dictGet
  rw [dictGet_foldl_none]
  simp

lemma dictGet_foldl_some (k : String) (pairs : List (String × ℚ)) (acc : Option ℚ) (q : ℚ) :
    pairs.foldl (fun a p => if p.1 == k then some p.2 else a) acc = some q →
      (k, q) ∈ pairs ∨ acc = some q := by
  induction pairs generalizing acc with
  | nil => exact fun h => Or.inr h
  | cons p rest ih =>
    intro h
    rcases ih _ h with hmem | hacc
    · exact Or.inl (List.mem_cons_of_mem _ hmem)
    · change (if (p.1 == k) = true then some p.2 else acc) = some q at hacc
      by_cases hk : p.1 = k
      · rw [if_pos (by simpa using hk)] at hacc
        have hpq : p = (k, q) := by
          obtain ⟨p1, p2⟩ := p
          simp only [Option.some.injEq] at hacc
          simp_all
        exact Or.inl (hpq ▸ List.mem_cons_self p rest)
      · rw [if_neg (by simpa using hk)] at hacc
        exact Or.inr hacc

lemma dictGet_mem (pairs : List (String × ℚ)) (k : String) (q : ℚ)
    (h : dictGet pairs k = some q) : (k, q) ∈ pairs := by
  rcases dictGet_foldl_some k pairs none q h with h1 | h1
  · exact h1
  · cases h1

lemma dropLast_dropLast_eq_take (l : List String) :
    l.dropLast.dropLast = l.take (l.length - 2) := by
  rw [List.dropLast_eq_take, List.dropLast_eq_take]
  simp only [List.length_take, List.take_take]
  congr 1
  omega

lemma getElem_zero_eq (l : List String) (h : l ≠ []) : l[0]? = some (l.headD "") := by
  cases l with
  | nil => exact absurd rfl h
  | cons a t => simp

lemma getElem_last_eq (l : List String) (h : l ≠ []) :
    l[l.length - 1]? = some (l.getLastD "") := by
  rw [List.getLastD_eq_getLast?, ← List.getLast?_eq_getElem?]
  rcases e : l.getLast? with _ | x
  · rw [List.getLast?_eq_none_iff] at e
    exact absurd e h
  · rfl

lemma getElem_second_last_eq (l : List String) (h : 2 ≤ l.length) :
    l[l.length - 2]? = some (l.dropLast.getLastD "") := by
  have hne : l.dropLast ≠ [] := by
    intro hc
    have := congrArg List.length hc
    simp only [List.length_dropLast, List.length_nil] at this
    omega
  have hlast := getElem_last_eq l.dropLast hne
  rw [List.length_dropLast] at hlast
  rw [← hlast, List.getElem?_dropLast, if_pos (by omega)]
  congr 1

lemma parse_item_no_short (s : String) (h : (pySplitDash s).length < 3) :
    parse_item_no s = ⟨none, none, none, none⟩ := by
  rcases e : pySplitDash s with _ | ⟨a, _ | ⟨b, _ | ⟨c, tl⟩⟩⟩
  · unfold parse_item_no
    rw [e]
    rfl
  · unfold parse_item_no
    rw [e]
    rfl
  · unfold parse_item_no
    rw [e]
    rfl
  · rw [e] at h
    simp at h
    omega

/-! ## C4: the segment-count rule of `parse_item_no` -/

/-- **C4.** `parse_item_no` splits on `-`: exactly 3 segments give (seg0,
seg1, seg2) with an absent variable; exactly 4 give all four fields; more
than 4 give style = first segment, color = the middle segments rejoined with
`-`, size = second-to-last segment, variable = last segment; fewer than 3
give the all-absent tuple (and, being a total function, the parse raises no
exception). -/
theorem parse_item_no_segment_rule (s : String) :
    (∀ a b c, pySplitDash s = [a, b, c] →
      parse_item_no s = ⟨some a, some b, some c, none⟩)
    ∧ (∀ a b c d, pySplitDash s = [a, b, c, d] →
      parse_item_no s = ⟨some a, some b, some c, some d⟩)
    ∧ (4 < (pySplitDash s).length →
      parse_item_no s =
        ⟨(pySplitDash s)[0]?,
         some (joinDash (((pySplitDash s).drop 1).take ((pySplitDash s).length - 3))),
         (pySplitDash s)[(pySplitDash s).length - 2]?,
         (pySplitDash s)[(pySplitDash s).length - 1]?⟩)
    ∧ ((pySplitDash s).length < 3 → parse_item_no s = ⟨none, none, none, none⟩) := by
  refine ⟨?_, ?_, ?_, ?_⟩
  · intro a b c h
    unfold parse_item_no
    rw [h]
  · intro a b c d h
    unfold parse_item_no
    rw [h]
  · intro h
    rcases e : pySplitDash s with _ | ⟨a, _ | ⟨b, _ | ⟨c, _ | ⟨d, _ | ⟨x, tl⟩⟩⟩⟩⟩ <;>
      rw [e] at h
    · simp at h
    · simp at h
    · simp at h
    · simp at h
    · simp at h
    · unfold parse_item_no
      rw [e]
      show (if (a :: b :: c :: d :: x :: tl).length > 4 then
              ({ style := some ((a :: b :: c :: d :: x :: tl).headD ""),
                 color := some (joinDash ((List.drop 1 (a :: b :: c :: d :: x :: tl)).dropLast.dropLast)),
                 size := some ((a :: b :: c :: d :: x :: tl).dropLast.getLastD ""),
                 var := some ((a :: b :: c :: d :: x :: tl).getLastD "") } : Parsed)
            else { style := none, color := none, size := none, var := none }) = _
      rw [if_pos (by simp only [List.length_cons]; omega)]
      have h1 : (a :: b :: c :: d :: x :: tl) ≠ [] := by simp
      have h2 : 2 ≤ (a :: b :: c :: d :: x :: tl).length := by simp
      rw [Parsed.mk.injEq]
      refine ⟨(getElem_zero_eq _ h1).symm, ?_, (getElem_second_last_eq _ h2).symm,
        (getElem_last_eq _ h1).symm⟩
      have hd : List.drop 1 (a :: b :: c :: d :: x :: tl) = b :: c :: d :: x :: tl := rfl
      rw [hd, dropLast_dropLast_eq_take]
      have hl : (b :: c :: d :: x :: tl).length - 2 = (a :: b :: c :: d :: x :: tl).length - 3 := by
        simp
      rw [hl]
  · exact parse_item_no_short s

/-- **C4, witness.** The four branches of the segment-count rule at concrete
item codes. -/
theorem parse_item_no_segment_rule_witness :
    parse_item_no "A-B-C" = ⟨some "A", some "B", some "C", none⟩
    ∧ parse_item_no "A-B-C-D" = ⟨some "A", some "B", some "C", some "D"⟩
    ∧ parse_item_no "A-B-C-D-E-F" =
        ⟨(pySplitDash "A-B-C-D-E-F")[0]?,
         some (joinDash (((pySplitDash "A-B-C-D-E-F").drop 1).take
           ((pySplitDash "A-B-C-D-E-F").length - 3))),
         (pySplitDash "A-B-C-D-E-F")[(pySplitDash "A-B-C-D-E-F").length - 2]?,
         (pySplitDash "A-B-C-D-E-F")[(pySplitDash "A-B-C-D-E-F").length - 1]?⟩
    ∧ parse_item_no "AB" = ⟨none, none, none, none⟩ :=
  ⟨(parse_item_no_segment_rule "A-B-C").1 "A" "B" "C" (by decide),
   (parse_item_no_segment_rule "A-B-C-D").2.1 "A" "B" "C" "D" (by decide),
   (parse_item_no_segment_rule "A-B-C-D-E-F").2.2.1 (by decide),
   (parse_item_no_segment_rule "AB").2.2.2 (by decide)⟩

/-! ## C5: first-match rule dispatch of the Size Mapper -/

/-- **C5.** The Size Mapper scans the rule list in order; for the first rule
that matches, the size is looked up in `SIZE_MAPPING`, falling back to the
original size when absent from that table; with no matching rule the size is
unchanged.  With the shipped configuration: style `2278` maps `L` to `LG`
(for every color); style `9999` leaves `L` unchanged (for every color);
style `2795` with color `SILVER` maps `XL` to `XLG`; style `2795` with color
`BLUE` leaves `XL` unchanged. -/
theorem size_mapper_first_match_rule (style color size : Option String)
    (rules : List StyleRule) :
    apply_conditional_size_mapping style color size rules =
      (if (rules.find? (ruleMatches style color)).isSome then sizeMappingGet size else size)
    ∧ (∀ c, apply_conditional_size_mapping (some "2278") c (some "L")
        STYLES_USING_G_SIZES = some "LG")
    ∧ (∀ c, apply_conditional_size_mapping (some "9999") c (some "L")
        STYLES_USING_G_SIZES = some "L")
    ∧ apply_conditional_size_mapping (some "2795") (some "SILVER") (some "XL")
        STYLES_USING_G_SIZES = some "XLG"
    ∧ apply_conditional_size_mapping (some "2795") (some "BLUE") (some "XL")
        STYLES_USING_G_SIZES = some "XL" := by
  refine ⟨?_, fun c => rfl, fun c => rfl, by decide, by decide⟩
  induction rules with
  | nil => simp [apply_conditional_size_mapping]
  | cons r rest ih =>
    cases r with
    | styleOnly st =>
      simp only [apply_conditional_size_mapping]
      by_cases h : (style == some st) = true
      · rw [if_pos h, List.find?_cons_of_pos _ (by simpa [ruleMatches] using h)]
        simp
      · rw [if_neg (by simpa using h), List.find?_cons_of_neg _ (by simpa [ruleMatches] using h),
          ih]
    | styleColor st co =>
      simp only [apply_conditional_size_mapping]
      by_cases h : (style == some st && color == some co) = true
      · rw [if_pos h, List.find?_cons_of_pos _ (by simpa [ruleMatches] using h)]
        simp
      · rw [if_neg (by simpa using h), List.find?_cons_of_neg _ (by simpa [ruleMatches] using h),
          ih]

/-! ## C2: canonical-key variant collapse (corrected)

`create_lookup_key` (discontinuation pipeline) collapses an absent, empty,
`NONE` or `NAN` variant to the 3-part key.  The 4-part lookup key built in
price-matching mode (`Lookup_Key_4`, lines 189–194/202–207) does not: its
variant slot is `fillna('')`-normalized only, so a missing variant leaves a
trailing empty field and the literal tokens `none`/`NaN` survive uppercased
into the key. -/

lemma toUpper_of_pyspace (c : Char) (h : isPySpace c = true) : c.toUpper = c := by
  simp only [isPySpace, Bool.or_eq_true, decide_eq_true_eq] at h
  rcases h with ((((rfl | rfl) | rfl) | rfl) | rfl) | rfl <;> decide

lemma all_space_of_pyStrip_empty (v : String) (h : pyStrip v = "") :
    ∀ c ∈ v.data, isPySpace c = true := by
  have h0 : ((v.data.dropWhile isPySpace).reverse.dropWhile isPySpace).reverse = [] := by
    have := congrArg String.data h
    simpa [pyStrip] using this
  rw [List.reverse_eq_nil_iff, List.dropWhile_eq_nil_iff] at h0
  intro c hc
  have hsplit := List.takeWhile_append_dropWhile (p := isPySpace) (l := v.data)
  rw [← hsplit] at hc
  rcases List.mem_append.1 hc with h1 | h1
  · exact List.mem_takeWhile_imp h1
  · exact h0 c (List.mem_reverse.2 h1)

lemma pyNorm_empty_of_strip_empty (v : String) (h : pyStrip v = "") : pyNorm v = "" := by
  have hall := all_space_of_pyStrip_empty v h
  have hmap : v.data.map Char.toUpper = v.data := by
    calc v.data.map Char.toUpper
        = v.data.map id := List.map_congr_left (fun c hc => toUpper_of_pyspace c (hall c hc))
      _ = v.data := List.map_id _
  unfold pyNorm pyUpper
  rw [hmap]
  exact h

/-- **C2, counterexample.** With variant string `"none"`, the price-matching
4-part lookup key keeps the literal token (`A|RED|M|NONE`) instead of
collapsing to the 3-part form `A|RED|M` that `create_lookup_key` produces,
so the collapse rule does not hold for the 4-part keys built in
price-matching mode. -/
theorem price_key4_keeps_none_token :
    vplKey4 ⟨"A", "RED", "M", some "none", 10⟩ = "A|RED|M|NONE"
    ∧ create_lookup_key (some "A") (some "RED") (some "M") (some "none") = "A|RED|M"
    ∧ vplKey4 ⟨"A", "RED", "M", some "none", 10⟩ ≠ "A|RED|M" :=
  ⟨by decide, by decide, by decide⟩

/-- **C2 (amended).** `create_lookup_key` — the key computation of the
discontinuation pipeline — behaves exactly as claimed: each field is
stringified, uppercased and trimmed; a variant that is missing, or whose
normalization is empty, `NONE` or `NAN`, is treated as absent and yields the
3-part key, a present variant the 4-part key.  In price-matching mode the
3-part key agrees with `create_lookup_key`, but the 4-part key always has
four pipe-separated fields: an absent variant leaves a trailing empty field
and a literal `"none"` variant is kept as the token `NONE`. -/
theorem canonical_key_variant_collapse (s c sz : Option String) (v vs cs zs : String) (p : ℚ) :
    create_lookup_key s c sz none =
      pyNorm (pyStr s) ++ "|" ++ pyNorm (pyStr c) ++ "|" ++ pyNorm (pyStr sz)
    ∧ create_lookup_key s c sz (some "") = create_lookup_key s c sz none
    ∧ create_lookup_key s c sz (some "none") = create_lookup_key s c sz none
    ∧ create_lookup_key s c sz (some "NaN") = create_lookup_key s c sz none
    ∧ create_lookup_key s c sz (some v) =
        (if pyNorm v = "" || pyNorm v = "NONE" || pyNorm v = "NAN"
         then create_lookup_key s c sz none
         else create_lookup_key s c sz none ++ "|" ++ pyNorm v)
    ∧ vplKey3 ⟨vs, cs, zs, none, p⟩ = create_lookup_key (some vs) (some cs) (some zs) none
    ∧ vplKey4 ⟨vs, cs, zs, none, p⟩ = vplKey3 ⟨vs, cs, zs, none, p⟩ ++ "|"
    ∧ vplKey4 ⟨vs, cs, zs, some "none", p⟩ = vplKey3 ⟨vs, cs, zs, none, p⟩ ++ "|NONE" := by
  refine ⟨rfl, rfl, rfl, rfl, ?_, rfl, ?_, ?_⟩
  · by_cases h1 : pyStrip v = ""
    · have h2 := pyNorm_empty_of_strip_empty v h1
      simp [create_lookup_key, h1, h2]
    · by_cases h2 : pyNorm v = "NONE"
      · simp [create_lookup_key, h1, h2]
      · by_cases h3 : pyNorm v = "NAN"
        · simp [create_lookup_key, h1, h2, h3]
        · by_cases h4 : pyNorm v = ""
          · simp [create_lookup_key, h1, h2, h3, h4]
          · simp [create_lookup_key, h1, h2, h3, h4]
  · show _ ++ pyNormVar none = _
    rw [show pyNormVar none = "" from rfl, String.append_empty]
    rfl
  · show _ ++ pyNormVar (some "none") = _
    rw [show pyNormVar (some "none") = "NONE" from rfl, String.append_assoc]
    rfl

/-! ## C1: the two-tier price lookup -/

lemma dictGet_none_keys (vpl : List VplRow) (k : String) (f : VplRow → String) :
    dictGet (vpl.map fun w => (f w, w.price)) k = none ↔ ∀ v ∈ vpl, f v ≠ k := by
  rw [dictGet_eq_none_iff]
  constructor
  · intro h v hv hk
    exact h (f v, v.price) (List.mem_map_of_mem _ hv) hk
  · intro h p hp
    obtain ⟨v, hv, rfl⟩ := List.mem_map.1 hp
    exact h v hv

lemma price_two_tier_none_iff (vpl : List VplRow) (k4 k3 : String) :
    (match dictGet (vpl.map fun w => (vplKey4 w, w.price)) k4 with
     | some p => some p
     | none => dictGet (vpl.map fun w => (vplKey3 w, w.price)) k3) = none ↔
      (∀ v ∈ vpl, vplKey4 v ≠ k4) ∧ (∀ v ∈ vpl, vplKey3 v ≠ k3) := by
  rcases e4 : dictGet (vpl.map fun w => (vplKey4 w, w.price)) k4 with _ | p
  · show dictGet (vpl.map fun w => (vplKey3 w, w.price)) k3 = none ↔ _
    rw [dictGet_none_keys]
    have h4 : ∀ v ∈ vpl, vplKey4 v ≠ k4 := (dictGet_none_keys vpl k4 vplKey4).mp e4
    exact ⟨fun h3 => ⟨h4, h3⟩, fun h => h.2⟩
  · show some p = none ↔ _
    constructor
    · intro h
      cases h
    · rintro ⟨h4, -⟩
      exfalso
      have hn := (dictGet_none_keys vpl k4 vplKey4).mpr h4
      rw [hn] at e4
      cases e4

lemma price_two_tier_match_some (vpl : List VplRow) (k4 k3 : String) (v : VplRow)
    (hv : v ∈ vpl) (hk : vplKey4 v = k4)
    (huniq : ∀ w ∈ vpl, vplKey4 w = k4 → w.price = v.price) :
    (match dictGet (vpl.map fun w => (vplKey4 w, w.price)) k4 with
     | some p => some p
     | none => dictGet (vpl.map fun w => (vplKey3 w, w.price)) k3) = some v.price := by
  rcases e4 : dictGet (vpl.map fun w => (vplKey4 w, w.price)) k4 with _ | p
  · exfalso
    exact (dictGet_none_keys vpl k4 vplKey4).mp e4 v hv hk
  · show some p = some v.price
    have hmem := dictGet_mem _ _ _ e4
    obtain ⟨w, hw, heq⟩ := List.mem_map.1 hmem
    have h1 : vplKey4 w = k4 := congrArg Prod.fst heq
    have h2 : w.price = p := congrArg Prod.snd heq
    rw [← h2, huniq w hw h1]

/-- **C1.** In price-matching mode every output row's price is determined by
the two-tier lookup: the 4-part key is consulted in the 4-part vendor map
first, the 3-part key in the 3-part map only when the 4-part key is absent,
and the row is unmatched (`price = none`) exactly when no vendor row carries
either key.  In particular a row whose 4-part key equals a vendor row's
4-part key (unambiguously, i.e. every vendor row with that key carries that
price) receives that vendor row's price. -/
theorem two_tier_price_lookup (oitm : List String) (vpl : List VplRow) (r : OitmRow)
    (hr : r ∈ match_prices oitm vpl STYLES_USING_G_SIZES) :
    r.price =
      (match dictGet (vpl.map fun w => (vplKey4 w, w.price)) r.lookupKey4Mapped with
       | some p => some p
       | none => dictGet (vpl.map fun w => (vplKey3 w, w.price)) r.lookupKey3Mapped)
    ∧ (r.price = none ↔
        (∀ v ∈ vpl, vplKey4 v ≠ r.lookupKey4Mapped) ∧
        (∀ v ∈ vpl, vplKey3 v ≠ r.lookupKey3Mapped))
    ∧ (∀ v ∈ vpl, vplKey4 v = r.lookupKey4Mapped →
        (∀ w ∈ vpl, vplKey4 w = r.lookupKey4Mapped → w.price = v.price) →
        r.price = some v.price) := by
  unfold match_prices at hr
  rw [List.map_map, List.mem_map] at hr
  obtain ⟨code, hcode, rfl⟩ := hr
  refine ⟨rfl, ?_, ?_⟩
  · exact price_two_tier_none_iff vpl _ _
  · intro v hv hk huniq
    exact price_two_tier_match_some vpl _ _ v hv hk huniq

/-- **C1, witness.** The spec's own fallback example: a vendor row keyed
`A|RED|M|1` prices the internal item `A-RED-M-1` through the 4-part key. -/
theorem two_tier_price_lookup_witness :
    ((match_prices ["A-RED-M-1"] [⟨"A", "RED", "M", some "1", 10⟩]
        STYLES_USING_G_SIZES).headD (computeOitmRow STYLES_USING_G_SIZES "")).price = some 10 := by
  have hr : ((match_prices ["A-RED-M-1"] [⟨"A", "RED", "M", some "1", 10⟩]
      STYLES_USING_G_SIZES).headD (computeOitmRow STYLES_USING_G_SIZES "")) ∈
      match_prices ["A-RED-M-1"] [⟨"A", "RED", "M", some "1", 10⟩] STYLES_USING_G_SIZES := by
    decide
  exact (two_tier_price_lookup _ _ _ hr).2.2 ⟨"A", "RED", "M", some "1", 10⟩ (by decide)
    (by decide) (by decide)

/-! ## C7 and C10: unparseable item codes in price-matching mode -/

lemma computeOitmRow_short (code : String) (h : (pySplitDash code).length < 3) :
    computeOitmRow STYLES_USING_G_SIZES code =
      { itemNo := code, style := none, color := none, size := none, var := none,
        sizeMapped := none, styleNorm := "NONE", colorNorm := "NONE", sizeNorm := "NONE",
        sizeMappedNorm := "NONE", varNorm := "",
        lookupKey4Mapped := "NONE|NONE|NONE|", lookupKey3Mapped := "NONE|NONE|NONE",
        price := none } := by
  have hp := parse_item_no_short code h
  unfold computeOitmRow
  rw [hp]
  rfl

/-- **C7, counterexample.** An internal item whose code has fewer than 3
hyphen segments is not unconditionally unmatched: against a vendor row whose
normalized fields are all `NONE` (and missing variable) it matches through
the key `NONE|NONE|NONE|`, receives that price and stays in the matched
(price-carrying) output; moreover the detail report's reason text is the
constant `No matching price found`, not `unparseable code`. -/
theorem unparseable_item_can_match :
    (pySplitDash "AB").length < 3
    ∧ (match_prices ["AB"] [⟨"None", "none", " NONE ", none, 5⟩] STYLES_USING_G_SIZES).map
        (fun r => (r.itemNo, r.price)) = [("AB", some 5)]
    ∧ ((match_prices ["AB"] [⟨"None", "none", " NONE ", none, 5⟩] STYLES_USING_G_SIZES).filter
        (fun r => r.price.isSome)).map (fun r => r.itemNo) = ["AB"]
    ∧ removedSkuReason ≠ "unparseable code" :=
  ⟨by decide, by decide, by decide, by decide⟩

/-- **C7 (amended).** An internal item whose code yields fewer than 3 hyphen
segments parses to the all-absent tuple without aborting the run; its lookup
keys are the literal `NONE|NONE|NONE|` and `NONE|NONE|NONE`, so it is
unmatched (and hence excluded from the matched output) if and only if no
vendor row's normalized key equals one of those two strings; and an
unmatched item appears in the detail report with the constant reason text
`No matching price found` (not `unparseable code`). -/
theorem unparseable_item_match_condition (oitm : List String) (vpl : List VplRow)
    (r : OitmRow) (hr : r ∈ match_prices oitm vpl STYLES_USING_G_SIZES)
    (hlen : (pySplitDash r.itemNo).length < 3) :
    r.style = none ∧ r.color = none ∧ r.size = none ∧ r.var = none
    ∧ r.lookupKey4Mapped = "NONE|NONE|NONE|"
    ∧ r.lookupKey3Mapped = "NONE|NONE|NONE"
    ∧ (r.price = none ↔
        (∀ v ∈ vpl, vplKey4 v ≠ "NONE|NONE|NONE|") ∧
        (∀ v ∈ vpl, vplKey3 v ≠ "NONE|NONE|NONE"))
    ∧ removedSkuReason = "No matching price found" := by
  unfold match_prices at hr
  rw [List.map_map, List.mem_map] at hr
  obtain ⟨code, hcode, rfl⟩ := hr
  have hlc : (pySplitDash code).length < 3 := hlen
  rw [Function.comp_apply, computeOitmRow_short code hlc]
  refine ⟨rfl, rfl, rfl, rfl, rfl, rfl, ?_, rfl⟩
  exact price_two_tier_none_iff vpl _ _

/-- **C7, witness.** The amended claim at the one-segment code `"AB"`
against a vendor table that cannot produce the `NONE` keys. -/
theorem unparseable_item_match_condition_witness :
    (((match_prices ["AB"] [⟨"B", "BLUE", "S", none, 3⟩] STYLES_USING_G_SIZES).headD
        (computeOitmRow STYLES_USING_G_SIZES "")).price = none ↔
      (∀ v ∈ [(⟨"B", "BLUE", "S", none, 3⟩ : VplRow)], vplKey4 v ≠ "NONE|NONE|NONE|") ∧
      (∀ v ∈ [(⟨"B", "BLUE", "S", none, 3⟩ : VplRow)], vplKey3 v ≠ "NONE|NONE|NONE")) := by
  have h := unparseable_item_match_condition ["AB"] [⟨"B", "BLUE", "S", none, 3⟩]
    ((match_prices ["AB"] [⟨"B", "BLUE", "S", none, 3⟩] STYLES_USING_G_SIZES).headD
      (computeOitmRow STYLES_USING_G_SIZES "")) (by decide) (by decide)
  exact h.2.2.2.2.2.2.1

/-- **C10.** An internal item whose code fails to parse is not removed
before key construction: its fields stringify so that its 4-part lookup key
is the literal `NONE|NONE|NONE|` (and the 3-part key `NONE|NONE|NONE`), and
such an item can still be priced and emitted as matched when a vendor row's
normalized fields produce the same key — here a vendor row (`" none"`,
`"NONE"`, `"None"`, variable `""`) prices the one-segment code `"X"`. -/
theorem unparseable_key_literal_none (code : String)
    (h : (pySplitDash code).length < 3) :
    (computeOitmRow STYLES_USING_G_SIZES code).lookupKey4Mapped = "NONE|NONE|NONE|"
    ∧ (computeOitmRow STYLES_USING_G_SIZES code).lookupKey3Mapped = "NONE|NONE|NONE"
    ∧ (match_prices ["X"] [⟨" none", "NONE", "None", some "", 7⟩] STYLES_USING_G_SIZES).map
        (fun r => (r.itemNo, r.price)) = [("X", some 7)]
    ∧ ((match_prices ["X"] [⟨" none", "NONE", "None", some "", 7⟩] STYLES_USING_G_SIZES).filter
        (fun r => r.price.isSome)).map (fun r => r.itemNo) = ["X"] := by
  rw [computeOitmRow_short code h]
  exact ⟨rfl, rfl, by decide, by decide⟩

/-- **C10, witness.** The key computation at the two-segment code `"Q-1"`. -/
theorem unparseable_key_literal_none_witness :
    (computeOitmRow STYLES_USING_G_SIZES "Q-1").lookupKey4Mapped = "NONE|NONE|NONE|" :=
  (unparseable_key_literal_none "Q-1" (by decide)).1

/-! ## C9: size-mapping rule matching is raw, key normalization is not -/

/-- **C9.** Rule matching in the Size Mapper compares the raw parsed fields,
while lookup keys are built from normalized fields: any color that
normalizes to `SILVER` without being exactly `"SILVER"` (case or whitespace
differences) defeats the (`2795`, `SILVER`) rule — the size stays `XL` where
the exact form maps to `XLG` — yet both colors produce the identical
canonical key. -/
theorem size_mapping_raw_comparison (c : String)
    (h1 : pyNorm c = "SILVER") (h2 : c ≠ "SILVER") :
    apply_conditional_size_mapping (some "2795") (some c) (some "XL")
      STYLES_USING_G_SIZES = some "XL"
    ∧ apply_conditional_size_mapping (some "2795") (some "SILVER") (some "XL")
      STYLES_USING_G_SIZES = some "XLG"
    ∧ create_lookup_key (some "2795") (some c) (some "XL") none
        = create_lookup_key (some "2795") (some "SILVER") (some "XL") none := by
  have hb : (c == "SILVER") = false := beq_eq_false_iff_ne.mpr h2
  refine ⟨?_, by decide, ?_⟩
  · simp [apply_conditional_size_mapping, hb]
  · simp [create_lookup_key, pyStr, h1, show pyNorm "SILVER" = "SILVER" from rfl]

/-- **C9, witness.** The raw/normalized asymmetry at the lowercase color
`"silver"`. -/
theorem size_mapping_raw_comparison_witness :
    apply_conditional_size_mapping (some "2795") (some "silver") (some "XL")
      STYLES_USING_G_SIZES = some "XL"
    ∧ create_lookup_key (some "2795") (some "silver") (some "XL") none
        = create_lookup_key (some "2795") (some "SILVER") (some "XL") none :=
  ⟨(size_mapping_raw_comparison "silver" (by decide) (by decide)).1,
   (size_mapping_raw_comparison "silver" (by decide) (by decide)).2.2⟩

/-! ## C6: discontinuation-mode flagging -/

/-- **C6.** In discontinuation mode the flagged output is exactly the subset
of internal items whose single-tier canonical key lies in the key set of the
vendor rows whose descriptive name contains the case-insensitive substring
`DISCONTINUED`; the output is a sublist of the internal table (input order
preserved); and appending a vendor row without the marker never changes the
flagged output. -/
theorem discontinued_flagging_rule (oitm : List String) (dtw : List DtwRow) :
    (∀ code, code ∈ oitm_to_deactivate oitm dtw ↔
      code ∈ oitm ∧ ∃ r ∈ dtw, isDiscontinuedRow r = true ∧ dtwKey r = oitm_lookup_key code)
    ∧ (oitm_to_deactivate oitm dtw).Sublist oitm
    ∧ (∀ r, isDiscontinuedRow r = false →
        oitm_to_deactivate oitm (dtw ++ [r]) = oitm_to_deactivate oitm dtw) := by
  refine ⟨?_, List.filter_sublist _, ?_⟩
  · intro code
    unfold oitm_to_deactivate
    rw [List.mem_filter]
    constructor
    · rintro ⟨hmem, hc⟩
      refine ⟨hmem, ?_⟩
      rw [List.contains, List.elem_iff, List.mem_map] at hc
      obtain ⟨r, hr, hkey⟩ := hc
      rw [List.mem_filter] at hr
      exact ⟨r, hr.1, hr.2, hkey⟩
    · rintro ⟨hmem, r, hr, hdisc, hkey⟩
      refine ⟨hmem, ?_⟩
      rw [List.contains, List.elem_iff, List.mem_map]
      exact ⟨r, List.mem_filter.2 ⟨hr, hdisc⟩, hkey⟩
  · intro r hr
    unfold oitm_to_deactivate
    rw [List.filter_append]
    simp [hr]

/-- **C6, witness.** The spec's example: a vendor row named
`Classic Tee - DISCONTINUED` flags the key-matching item `B-BLUE-S`, and
appending a row named `Classic Tee` (no marker) changes nothing. -/
theorem discontinued_flagging_rule_witness :
    isDiscontinuedRow ⟨"B", "BLUE", "S", none, "Classic Tee"⟩ = false
    ∧ oitm_to_deactivate ["B-BLUE-S"]
        ([⟨"B", "BLUE", "S", none, "Classic Tee - DISCONTINUED"⟩] ++
          [⟨"B", "BLUE", "S", none, "Classic Tee"⟩])
      = oitm_to_deactivate ["B-BLUE-S"] [⟨"B", "BLUE", "S", none, "Classic Tee - DISCONTINUED"⟩] :=
  ⟨by decide,
   (discontinued_flagging_rule ["B-BLUE-S"]
      [⟨"B", "BLUE", "S", none, "Classic Tee - DISCONTINUED"⟩]).2.2
     ⟨"B", "BLUE", "S", none, "Classic Tee"⟩ (by decide)⟩

/-! ## C8: empty results and the vendor-pair boundary -/

/-- **C8, counterexample.** A price-mode pair with zero matches still
produces its per-vendor output file (the summary records an output file name
even with `matchedSkus = 0`), and a price-mode pair whose internal table has
zero rows does not complete with zero counts: the caught division-by-zero
(line 274) makes `process_vendor` return `None`, so the pair is skipped and
absent from the summary. -/
theorem zero_match_pair_behavior :
    (process_vendor "V1" ["A-B-C"] [] STYLES_USING_G_SIZES).map
        (fun s => (s.matchedSkus, s.outputFile))
      = some (0, some "V1_OITM_Updated.xlsx")
    ∧ process_vendor "V2" [] [] STYLES_USING_G_SIZES = none :=
  ⟨by decide, by decide⟩

/-- **C8 (amended).** For a nonempty internal table, a price-mode pair with
zero matches completes normally and is reported with zero matched count and
full removed count — but its per-vendor output file is still produced; a
price-mode pair with an empty internal table fails internally, is caught by
the per-pair handler and skipped (`none`), so no exception crosses the pair
boundary; and a discontinuation-mode pair with a nonempty internal table and
zero discontinued vendor rows completes with zero counts and no output
file. -/
theorem empty_result_reporting (vendor : String) (oitm : List String) (vpl : List VplRow)
    (dtw : List DtwRow) (hne : oitm ≠ [])
    (hzero : ∀ r ∈ match_prices oitm vpl STYLES_USING_G_SIZES, r.price = none) :
    process_vendor vendor oitm vpl STYLES_USING_G_SIZES =
      some { vendor := vendor, totalSkus := oitm.length, matchedSkus := 0,
             removedSkus := oitm.length, matchRate := 0, sizeMapped := 0,
             outputFile := some (vendor ++ "_OITM_Updated.xlsx"), removedItems := oitm }
    ∧ process_vendor vendor [] vpl STYLES_USING_G_SIZES = none
    ∧ ((∀ r ∈ dtw, isDiscontinuedRow r = false) →
        find_discontinued_items vendor oitm dtw =
          some ⟨vendor, oitm.length, 0, 0, none⟩) := by
  refine ⟨?_, rfl, ?_⟩
  · unfold process_vendor
    have hlen : (match_prices oitm vpl STYLES_USING_G_SIZES).length = oitm.length := by
      simp [match_prices]
    have hfS : (match_prices oitm vpl STYLES_USING_G_SIZES).filter
        (fun r => r.price.isSome) = [] := by
      rw [List.filter_eq_nil_iff]
      intro r hrr
      simp [hzero r hrr]
    have hfN : (match_prices oitm vpl STYLES_USING_G_SIZES).filter
        (fun r => r.price.isNone) = match_prices oitm vpl STYLES_USING_G_SIZES := by
      rw [List.filter_eq_self]
      intro r hrr
      simp [hzero r hrr]
    have hfM : (match_prices oitm vpl STYLES_USING_G_SIZES).filter
        (fun r => r.price.isSome && !(r.size == r.sizeMapped)) = [] := by
      rw [List.filter_eq_nil_iff]
      intro r hrr
      simp [hzero r hrr]
    have hmap : (match_prices oitm vpl STYLES_USING_G_SIZES).map (fun r => r.itemNo) = oitm := by
      unfold match_prices
      rw [List.map_map, List.map_map]
      conv_rhs => rw [← List.map_id oitm]
      apply List.map_congr_left
      intro code hc
      rfl
    have hpos : 0 < oitm.length := List.length_pos.2 hne
    dsimp only
    rw [hlen, hfS, hfN, hfM, hmap]
    rw [if_neg (by omega)]
    simp [hpos]
  · intro hnd
    unfold find_discontinued_items
    rw [if_neg (by simpa [List.length_eq_zero] using hne)]
    have hd : dtw.filter isDiscontinuedRow = [] := by
      rw [List.filter_eq_nil_iff]
      intro r hrr
      simp [hnd r hrr]
    rw [hd]
    rfl

/-- **C8, witness.** The amended claim at a concrete pair: one internal item,
an empty vendor price list, and a marker-free vendor table. -/
theorem empty_result_reporting_witness :
    process_vendor "V9" ["X-Y-Z"] [] STYLES_USING_G_SIZES =
      some { vendor := "V9", totalSkus := 1, matchedSkus := 0, removedSkus := 1,
             matchRate := 0, sizeMapped := 0, outputFile := some "V9_OITM_Updated.xlsx",
             removedItems := ["X-Y-Z"] }
    ∧ find_discontinued_items "V9" ["X-Y-Z"] [⟨"B", "BLUE", "S", none, "Classic Tee"⟩] =
        some ⟨"V9", 1, 0, 0, none⟩ := by
  have h := empty_result_reporting "V9" ["X-Y-Z"] []
    [⟨"B", "BLUE", "S", none, "Classic Tee"⟩] (by decide) (by decide)
  exact ⟨h.1, h.2.2 (by decide)⟩

lemma setCol_fresh (df : DataFrame) (n : String) (v : List Cell)
    (h : n ∉ DataFrame.names df) : DataFrame.setCol df n v = df ++ [(n, v)] := by
  unfold DataFrame.setCol
  rw [if_neg]
  intro hc
  obtain ⟨p, hp, hpn⟩ := List.any_eq_true.1 hc
  have hp1 : p.1 = n := by simpa using hpn
  exact h (hp1 ▸ List.mem_map_of_mem (fun q => q.1) hp)

lemma getCol_append_ne (df : DataFrame) (n m : String) (v : List Cell) (h : m ≠ n) :
    DataFrame.getCol (df ++ [(n, v)]) m = DataFrame.getCol df m := by
  induction df with
  | nil =>
    unfold DataFrame.getCol
    simp [List.find?, beq_eq_false_iff_ne.mpr (Ne.symm h)]
  | cons p rest ih =>
    unfold DataFrame.getCol at *
    rw [List.cons_append]
    by_cases hp : (p.1 == m) = true
    · rw [@List.find?_cons_of_pos _ (fun q => q.1 == m) p (rest ++ [(n, v)]) hp,
        @List.find?_cons_of_pos _ (fun q => q.1 == m) p rest hp]
    · rw [@List.find?_cons_of_neg _ (fun q => q.1 == m) p (rest ++ [(n, v)]) hp,
        @List.find?_cons_of_neg _ (fun q => q.1 == m) p rest hp]
      exact ih

lemma setCols_fresh_spec (cols : List (String × List Cell)) :
    ∀ df : DataFrame,
      (∀ q ∈ cols, q.1 ∉ DataFrame.names df) → (cols.map (fun q => q.1)).Nodup →
      DataFrame.names (DataFrame.setCols df cols)
          = DataFrame.names df ++ cols.map (fun q => q.1)
        ∧ (∀ m ∈ DataFrame.names df,
            DataFrame.getCol (DataFrame.setCols df cols) m = DataFrame.getCol df m) := by
  induction cols with
  | nil =>
    intro df h1 h2
    simp [DataFrame.setCols]
  | cons q rest ih =>
    intro df h1 h2
    have hq : q.1 ∉ DataFrame.names df := h1 q (List.mem_cons_self _ _)
    have hstep : DataFrame.setCols df (q :: rest) = DataFrame.setCols (df ++ [q]) rest := by
      unfold DataFrame.setCols
      rw [List.foldl_cons, setCol_fresh df q.1 q.2 hq]
    have hnames : DataFrame.names (df ++ [q]) = DataFrame.names df ++ [q.1] := by
      simp [DataFrame.names]
    have h1' : ∀ p ∈ rest, p.1 ∉ DataFrame.names (df ++ [q]) := by
      intro p hp
      rw [hnames]
      simp only [List.mem_append, List.mem_singleton]
      rintro (hc | hc)
      · exact h1 p (List.mem_cons_of_mem _ hp) hc
      · rw [List.map_cons, List.nodup_cons] at h2
        exact h2.1 (hc ▸ List.mem_map_of_mem _ hp)
    have h2' : (rest.map (fun q => q.1)).Nodup := by
      rw [List.map_cons, List.nodup_cons] at h2
      exact h2.2
    obtain ⟨ihn, ihg⟩ := ih (df ++ [q]) h1' h2'
    constructor
    · rw [hstep, ihn, hnames]
      simp
    · intro m hm
      rw [hstep]
      have hm' : m ∈ DataFrame.names (df ++ [q]) := by
        rw [hnames]
        exact List.mem_append_left _ hm
      rw [ihg m hm']
      exact getCol_append_ne df q.1 m q.2 (fun hc => hq (hc ▸ hm))

/-- **C3, counterexample.** `match_prices` is not free of side effects on its
inputs: on a one-row vendor table and a one-row internal table, both frames
differ after the call — each has gained derived columns in place. -/
theorem match_prices_mutates_tables :
    matchPricesVplEffect
        [("Vendor Style", [.str "A"]), ("Color", [.str "RED"]), ("Size", [.str "M"]),
         ("Variable", [.nan]), ("Price", [.num 10])]
      ≠ [("Vendor Style", [.str "A"]), ("Color", [.str "RED"]), ("Size", [.str "M"]),
         ("Variable", [.nan]), ("Price", [.num 10])]
    ∧ matchPricesOitmEffect [("Item No.", [.str "A-RED-M-1"])]
        [("Vendor Style", [.str "A"]), ("Color", [.str "RED"]), ("Size", [.str "M"]),
         ("Variable", [.nan]), ("Price", [.num 10])]
      ≠ [("Item No.", [.str "A-RED-M-1"])] :=
  ⟨by decide, by decide⟩

/-- **C3 (amended).** `match_prices` computes its result purely from its
argument values (it is modelled here as a function of the two frames), and
it never modifies an existing cell: when the derived column names are fresh,
every pre-existing column of both tables keeps its name, position and cells.
The tables are nevertheless not unchanged — the vendor frame is extended in
place with its six derived columns and the internal frame with its
thirteen. -/
theorem match_prices_preserves_existing_columns (odf vdf : DataFrame)
    (hv : ∀ n ∈ ["Style_norm", "Color_norm", "Size_norm", "Variable_norm",
        "Lookup_Key_4", "Lookup_Key_3"], n ∉ DataFrame.names vdf)
    (ho : ∀ n ∈ ["Style", "Color", "Size", "Variable", "Size_Mapped", "Style_norm",
        "Color_norm", "Size_norm", "Size_Mapped_norm", "Variable_norm",
        "Lookup_Key_4_Mapped", "Lookup_Key_3_Mapped", "Price"], n ∉ DataFrame.names odf) :
    DataFrame.names (matchPricesVplEffect vdf)
        = DataFrame.names vdf ++ ["Style_norm", "Color_norm", "Size_norm", "Variable_norm",
            "Lookup_Key_4", "Lookup_Key_3"]
    ∧ (∀ m ∈ DataFrame.names vdf,
        DataFrame.getCol (matchPricesVplEffect vdf) m = DataFrame.getCol vdf m)
    ∧ DataFrame.names (matchPricesOitmEffect odf vdf)
        = DataFrame.names odf ++ ["Style", "Color", "Size", "Variable", "Size_Mapped",
            "Style_norm", "Color_norm", "Size_norm", "Size_Mapped_norm", "Variable_norm",
            "Lookup_Key_4_Mapped", "Lookup_Key_3_Mapped", "Price"]
    ∧ (∀ m ∈ DataFrame.names odf,
        DataFrame.getCol (matchPricesOitmEffect odf vdf) m = DataFrame.getCol odf m) := by
  unfold matchPricesVplEffect matchPricesOitmEffect
  refine ⟨(setCols_fresh_spec _ _ ?_ ?_).1, (setCols_fresh_spec _ _ ?_ ?_).2,
    (setCols_fresh_spec _ _ ?_ ?_).1, (setCols_fresh_spec _ _ ?_ ?_).2⟩
  case refine_1 | refine_3 =>
    intro q hq
    simp only [List.mem_cons, List.not_mem_nil, or_false] at hq
    rcases hq with rfl | rfl | rfl | rfl | rfl | rfl <;> dsimp only <;> exact hv _ (by decide)
  case refine_2 | refine_4 =>
    show (["Style_norm", "Color_norm", "Size_norm", "Variable_norm", "Lookup_Key_4",
      "Lookup_Key_3"] : List String).Nodup
    decide
  case refine_5 | refine_7 =>
    intro q hq
    simp only [List.mem_cons, List.not_mem_nil, or_false] at hq
    rcases hq with rfl | rfl | rfl | rfl | rfl | rfl | rfl | rfl | rfl | rfl | rfl | rfl | rfl <;>
      dsimp only <;> exact ho _ (by decide)
  case refine_6 | refine_8 =>
    show (["Style", "Color", "Size", "Variable", "Size_Mapped", "Style_norm", "Color_norm",
      "Size_norm", "Size_Mapped_norm", "Variable_norm", "Lookup_Key_4_Mapped",
      "Lookup_Key_3_Mapped", "Price"] : List String).Nodup
    decide

/-- **C3, witness.** Column preservation at concrete one-row frames. -/
theorem match_prices_preserves_existing_columns_witness :
    DataFrame.names (matchPricesVplEffect
        [("Vendor Style", [.str "A"]), ("Color", [.str "RED"]), ("Size", [.str "M"]),
         ("Variable", [.nan]), ("Price", [.num 10])])
      = ["Vendor Style", "Color", "Size", "Variable", "Price",
         "Style_norm", "Color_norm", "Size_norm", "Variable_norm",
         "Lookup_Key_4", "Lookup_Key_3"]
    ∧ DataFrame.getCol (matchPricesOitmEffect [("Item No.", [.str "A-RED-M-1"])]
        [("Vendor Style", [.str "A"]), ("Color", [.str "RED"]), ("Size", [.str "M"]),
         ("Variable", [.nan]), ("Price", [.num 10])]) "Item No."
      = [.str "A-RED-M-1"] := by
  have h := match_prices_preserves_existing_columns [("Item No.", [.str "A-RED-M-1"])]
    [("Vendor Style", [.str "A"]), ("Color", [.str "RED"]), ("Size", [.str "M"]),
     ("Variable", [.nan]), ("Price", [.num 10])] (by decide) (by decide)
  constructor
  · rw [h.1]
    decide
  · rw [h.2.2.2 "Item No." (by decide)]
    decide
